import Mathlib

/-!
Shallow embedding of the test-automation framework's core components
(`src/config_manager.py`, `src/base_page.py`, `src/driver_manager.py`):
the configuration store with typed getters, the retry decorator, the
exception-swallowing decorator, the result cache, the process-wide
singleton, and the driver-lifecycle manager.
-/

namespace Framework

/-- Python exceptions raised by the embedded code paths. `keyError` models
`KeyError` (raised by `ConfigManager.get_property`), `valueError` models
`ValueError` (raised by `int()`/`float()`/`getboolean` coercion and by
`validate_config`). -/
inductive PyErr where
  | keyError (msg : String)
  | valueError (msg : String)
deriving DecidableEq, Repr

instance {ε α : Type} [DecidableEq ε] [DecidableEq α] :
    DecidableEq (Except ε α) := fun a b => by
  cases a <;> cases b
  case error.error e f => exact decidable_of_iff (e = f) (by simp)
  case ok.ok x y => exact decidable_of_iff (x = y) (by simp)
  all_goals exact isFalse (fun h => Except.noConfusion h)

/-- Digit-string to number, the core of Python's `int(s)` (base 10):
defined over the character list so that concrete instances evaluate. -/
def digitsToNat (l : List Char) : Option Nat :=
  if l.isEmpty then none
  else if l.all Char.isDigit then
    some (l.foldl (fun acc c => acc * 10 + (c.toNat - 48)) 0)
  else none

/-- Python `str.strip()` on a character list: drop leading and trailing
whitespace. -/
def trimList (l : List Char) : List Char :=
  ((l.dropWhile Char.isWhitespace).reverse.dropWhile Char.isWhitespace).reverse

/-- Python `str.lower()`. -/
def pyLower (s : String) : String := ⟨s.data.map Char.toLower⟩

/-- Python `str.startswith(p)`. -/
def pyStartsWith (p x : String) : Bool := x.data.take p.data.length == p.data

/-- A parsed configuration: an association list from (section, key) to the
stored string value, the state held by `configparser.ConfigParser` after
`ConfigManager._load_config`. -/
def Config := List ((String × String) × String)

/-- `ConfigParser.get`-style lookup: the stored string for (section, key),
or `none` (the `NoSectionError` / `NoOptionError` case). -/
def lookupKey (cfg : Config) (sec key : String) : Option String :=
  (cfg.find? (fun e => e.1.1 == sec && e.1.2 == key)).map (·.2)

/-- The `KeyError` message built by `ConfigManager.get_property` for a
missing key with no fallback: `f"Property '{section}.{key}' not found in
configuration"`. -/
def missingMsg (sec key : String) : String :=
  "Property '" ++ (sec ++ "." ++ key) ++ "' not found in configuration"

/-- `ConfigManager.get_property(section, key, fallback)`: returns the stored
string when present; on `NoSectionError`/`NoOptionError`, returns the
(stringified) fallback when one was supplied, otherwise raises `KeyError`.
The fallback parameter is modelled already stringified (`str(fallback)`). -/
def get_property (cfg : Config) (sec key : String)
    (fallback : Option String) : Except PyErr String :=
  match lookupKey cfg sec key with
  | some v => .ok v
  | none =>
    match fallback with
    | some fb => .ok fb
    | none => .error (.keyError (missingMsg sec key))

/-- Python `int(s)` on a configparser value: optional surrounding
whitespace, optional sign, decimal digits. Returns `none` where `int()`
raises `ValueError`. -/
def pyParseInt (s : String) : Option Int :=
  match trimList s.data with
  | '-' :: rest => (digitsToNat rest).map (fun n => -(n : Int))
  | '+' :: rest => (digitsToNat rest).map (fun n => (n : Int))
  | l => (digitsToNat l).map (fun n => (n : Int))

/-- `configparser.ConfigParser.getboolean` value conversion: accepts
`1/yes/true/on` and `0/no/false/off`, case-insensitively; anything else
raises `ValueError` (modelled as `none`). -/
def pyParseBool (s : String) : Option Bool :=
  let t := pyLower s
  if ["1", "yes", "true", "on"].contains t then some true
  else if ["0", "no", "false", "off"].contains t then some false
  else none

/-- Python `float(s)` on a configparser value, restricted to plain decimal
notation (optional sign, digits, at most one dot), which covers the values
this configuration file can meaningfully hold; exponent forms are out of
scope. Returns `none` where `float()` raises `ValueError`. -/
def pyParseFloat (s : String) : Option Rat :=
  let t := trimList s.data
  let signed : Rat × List Char :=
    match t with
    | '-' :: rest => (-1, rest)
    | '+' :: rest => (1, rest)
    | l => (1, l)
  match signed.2.splitOn '.' with
  | [w] => (digitsToNat w).map (fun n => signed.1 * n)
  | [w, f] =>
    if w.isEmpty && f.isEmpty then none
    else
      let wn := if w.isEmpty then some 0 else digitsToNat w
      let fn := if f.isEmpty then some 0 else digitsToNat f
      match wn, fn with
      | some a, some b => some (signed.1 * ((a : Rat) + (b : Rat) / (10 : Rat) ^ f.length))
      | _, _ => none
  | _ => none

/-- The shared shape of `ConfigManager.get_boolean` / `get_int` /
`get_float`: `try: return self._config.getX(section, key) except
(NoSectionError, NoOptionError): return fallback`. Only the two
missing-key errors are caught; a present value that fails to coerce
raises `ValueError`, which is not handled. -/
def typedGet (coerce : String → Option α) (cfg : Config)
    (sec key : String) (fallback : α) : Except PyErr α :=
  match lookupKey cfg sec key with
  | none => .ok fallback
  | some v =>
    match coerce v with
    | some x => .ok x
    | none => .error (.valueError ("could not coerce stored value: " ++ v))

/-- `ConfigManager.get_int`. -/
def get_int (cfg : Config) (sec key : String) (fallback : Int) :
    Except PyErr Int :=
  typedGet pyParseInt cfg sec key fallback

/-- `ConfigManager.get_boolean`. -/
def get_boolean (cfg : Config) (sec key : String) (fallback : Bool) :
    Except PyErr Bool :=
  typedGet pyParseBool cfg sec key fallback

/-- `ConfigManager.get_float`. -/
def get_float (cfg : Config) (sec key : String) (fallback : Rat) :
    Except PyErr Rat :=
  typedGet pyParseFloat cfg sec key fallback

/-- The `validate_config(validation_func)` decorator: runs the wrapped
accessor (whose outcome is the argument), then raises `ValueError` when the
produced value fails the predicate; errors of the wrapped accessor
propagate unchanged. -/
def validate_config (pred : α → Bool) (result : Except PyErr α) :
    Except PyErr α :=
  match result with
  | .ok v => if pred v then .ok v else .error (.valueError "Invalid configuration value")
  | .error e => .error e

/-- The predicate of `get_browser`'s `@validate_config`:
`x.lower() in ['chrome', 'firefox', 'edge', 'safari']`. -/
def browserPred (x : String) : Bool :=
  ["chrome", "firefox", "edge", "safari"].contains (pyLower x)

/-- `ConfigManager.get_browser` (the `@cache_config` layer is modelled
separately, see `cachedCall`; it does not change the produced value). -/
def get_browser (cfg : Config) : Except PyErr String :=
  validate_config browserPred (get_property cfg "BROWSER" "browser" (some "chrome"))

/-- `ConfigManager.get_base_url`: validated by `x.startswith('http')`,
no fallback. -/
def get_base_url (cfg : Config) : Except PyErr String :=
  validate_config (pyStartsWith "http") (get_property cfg "URLS" "base_url" none)

/-- `ConfigManager.get_explicit_wait_timeout`: `get_int` with fallback 10,
validated by `x > 0`. -/
def get_explicit_wait_timeout (cfg : Config) : Except PyErr Int :=
  validate_config (fun x => 0 < x) (get_int cfg "TIMEOUTS" "explicit_wait_timeout" 10)

/-! ## `retry_on_exception` (`src/base_page.py`)

The decorated call is modelled against an operation `op : Nat → Except E α`
giving the outcome of its `i`-th invocation, and a predicate
`retryable : E → Bool` modelling membership in the decorator's `exceptions`
tuple (Python's `except exceptions` subclass test). The loop body is
translated with the loop counter split into `remaining` retries and the
current `attempt` index, so `remaining = 0` is exactly the source's
`attempt == max_retries` test; alongside the result we count invocations of
`op` and calls to `time.sleep(1)`. -/

/-- One unrolling of `for attempt in range(max_retries + 1)` starting at
index `attempt` with `remaining` further iterations allowed: a success
returns; a failure in `exceptions` is re-raised when no iterations remain
(`attempt == max_retries`) and otherwise sleeps one second and retries; a
failure outside `exceptions` is not caught and propagates at once. -/
def retryLoop (op : Nat → Except E α) (retryable : E → Bool) :
    Nat → Nat → Except E α × Nat × Nat
  | remaining, attempt =>
    match op attempt with
    | .ok a => (.ok a, 1, 0)
    | .error e =>
      if retryable e then
        match remaining with
        | 0 => (.error e, 1, 0)
        | r + 1 =>
          let rest := retryLoop op retryable r (attempt + 1)
          (rest.1, rest.2.1 + 1, rest.2.2 + 1)
      else (.error e, 1, 0)

/-- `retry_on_exception(max_retries, exceptions)` applied to `op`: result,
number of invocations of `op`, and number of `time.sleep(1)` calls. -/
def retry_on_exception (op : Nat → Except E α) (retryable : E → Bool)
    (maxRetries : Nat) : Except E α × Nat × Nat :=
  retryLoop op retryable maxRetries 0

/-! ## `handle_exceptions` and the BasePage accessors (`src/base_page.py`)

The underlying driver interaction of each accessor is modelled by its
outcome, an `Except DriverErr β`: every Selenium exception these methods
can see derives from `Exception`, which the decorator's bare
`except Exception` catches. -/

/-- The Selenium exception classes distinguished by `src/base_page.py`
(all subclasses of Python's `Exception`). -/
inductive DriverErr where
  | timeout (msg : String)
  | noSuchElement (msg : String)
  | staleElement (msg : String)
  | webdriver (msg : String)
deriving DecidableEq, Repr

/-- The `handle_exceptions(default_return)` decorator: runs the wrapped
body; any raised exception is caught (`except Exception`) and replaced by
the default value. -/
def handle_exceptions (default : α) (body : Except DriverErr α) : α :=
  match body with
  | .ok a => a
  | .error _ => default

/-- The body of `BasePage.get_text` before decoration: waits for
visibility and reads `element.text`; a `TimeoutException` from the wait is
re-raised as a fresh `TimeoutException`, any other failure propagates.
`interaction` is the outcome of the wait-then-read against the driver. -/
def get_text_body (locator : String) (interaction : Except DriverErr String) :
    Except DriverErr String :=
  match interaction with
  | .ok text => .ok text
  | .error (.timeout _) => .error (.timeout ("Element not visible: " ++ locator))
  | .error e => .error e

/-- `BasePage.get_text`: `@handle_exceptions(default_return="")` around
`get_text_body` (the `@log_action` layer re-raises unchanged and is
semantically transparent). -/
def get_text (locator : String) (interaction : Except DriverErr String) : String :=
  handle_exceptions "" (get_text_body locator interaction)

/-- The body of `BasePage.get_attribute` before decoration: waits for
presence and reads the attribute; `TimeoutException` is re-raised as
`TimeoutException("Element not found: ...")`, other failures propagate. -/
def get_attribute_body (locator : String)
    (interaction : Except DriverErr String) : Except DriverErr String :=
  match interaction with
  | .ok v => .ok v
  | .error (.timeout _) => .error (.timeout ("Element not found: " ++ locator))
  | .error e => .error e

/-- `BasePage.get_attribute`: `@handle_exceptions(default_return="")`. -/
def get_attribute (locator : String) (interaction : Except DriverErr String) :
    String :=
  handle_exceptions "" (get_attribute_body locator interaction)

/-- The body of `BasePage.is_element_displayed`: the visibility wait's
`TimeoutException` is caught and turned into `False`; success yields
`True`; any other failure propagates. `interaction` is the wait outcome. -/
def is_element_displayed_body (interaction : Except DriverErr Unit) :
    Except DriverErr Bool :=
  match interaction with
  | .ok _ => .ok true
  | .error (.timeout _) => .ok false
  | .error e => .error e

/-- `BasePage.is_element_displayed`:
`@handle_exceptions(default_return=False)`. -/
def is_element_displayed (interaction : Except DriverErr Unit) : Bool :=
  handle_exceptions false (is_element_displayed_body interaction)

/-- The body of `BasePage.is_element_present`: `find_element`'s
`NoSuchElementException` is caught and turned into `False`; success yields
`True`; any other failure propagates. -/
def is_element_present_body (interaction : Except DriverErr Unit) :
    Except DriverErr Bool :=
  match interaction with
  | .ok _ => .ok true
  | .error (.noSuchElement _) => .ok false
  | .error e => .error e

/-- `BasePage.is_element_present`:
`@handle_exceptions(default_return=False)`. -/
def is_element_present (interaction : Except DriverErr Unit) : Bool :=
  handle_exceptions false (is_element_present_body interaction)

/-! ## `cache_config` / `lru_cache` (`src/config_manager.py`)

The `@lru_cache(maxsize=128)` wrapper produced by `cache_config` is
modelled as an association list from argument to stored result. The claims
exercise at most three calls on one key, far below the 128-entry bound, so
eviction never fires and is not modelled. `lru_cache` stores only values
returned normally: a call that raises stores nothing. -/

/-- The memo table of one `lru_cache`-wrapped accessor. -/
structure CacheState (κ ν : Type) where
  entries : List (κ × ν)
deriving Repr

/-- One call through the `lru_cache` wrapper: a hit returns the stored
value without invoking `compute`; a miss invokes `compute` once, storing
the result only when the call returns normally. The final component counts
invocations of the underlying computation (0 or 1). -/
def cachedCall [BEq κ] (compute : κ → Except PyErr ν)
    (st : CacheState κ ν) (k : κ) : Except PyErr ν × CacheState κ ν × Nat :=
  match st.entries.find? (fun e => e.1 == k) with
  | some kv => (.ok kv.2, st, 0)
  | none =>
    match compute k with
    | .ok v => (.ok v, ⟨(k, v) :: st.entries⟩, 1)
    | .error e => (.error e, st, 1)

/-- `cache_clear` as invoked on every cached accessor by
`ConfigManager.reload_config`: the memo table is emptied. -/
def cache_clear : CacheState κ ν := ⟨[]⟩

/-! ## The `ConfigManager` singleton (`src/config_manager.py`)

`ConfigManager.__new__` keeps one class-level `_instance`; the first call
allocates it and runs `_initialize` (which performs `_load_config`),
later calls return the stored instance untouched. Instances are modelled
by allocation identity (a `Nat`), and the number of `_load_config`
executions is tracked. -/

/-- Class-level state of `ConfigManager`: the `_instance` slot and how many
times `_load_config` has run. -/
structure SingletonState where
  inst : Option Nat
  loadCount : Nat
deriving DecidableEq, Repr

/-- The class state before any call: `_instance = None`, no load yet. -/
def initSingleton : SingletonState := ⟨none, 0⟩

/-- One call `ConfigManager()` (i.e. `__new__`): when `_instance` is
`None`, allocate instance `0` and run `_initialize`/`_load_config`;
otherwise return the stored instance with no loading. -/
def getInstance (st : SingletonState) : Nat × SingletonState :=
  match st.inst with
  | some i => (i, st)
  | none => (0, ⟨some 0, st.loadCount + 1⟩)

/-- `n` successive `ConfigManager()` calls: the returned instances in call
order, and the final class state. -/
def getInstanceRun (st : SingletonState) : Nat → List Nat × SingletonState
  | 0 => ([], st)
  | n + 1 =>
    let fst := getInstance st
    let rest := getInstanceRun fst.2 n
    (fst.1 :: rest.1, rest.2)

/-! ## `DriverManager` (`src/driver_manager.py`)

Class-level state: the `_driver` slot plus a supply of fresh handle
identities, so that distinctness of separately constructed drivers is
expressible. `_create_driver` dispatches on the lowercased browser name
and raises `ValueError` for an unsupported one; the claims only exercise
supported names, but the dispatch is kept. -/

/-- Class-level state of `DriverManager`: the `_driver` slot (a handle
identity when live) and the next fresh handle identity. -/
structure DriverState where
  driver : Option Nat
  nextId : Nat
deriving DecidableEq, Repr

/-- `DriverManager._create_driver`: lowercases the browser name, builds a
(fresh) driver for `chrome`/`firefox`/`edge`, raises `ValueError`
otherwise. -/
def create_driver (browser : String) (fresh : Nat) : Except PyErr Nat :=
  let b := pyLower browser
  if b == "chrome" || b == "firefox" || b == "edge" then .ok fresh
  else .error (.valueError ("Unsupported browser: " ++ b))

/-- `DriverManager.get_driver(browser_name)`: returns the stored handle
when `_driver` is not `None` (the argument is ignored); otherwise creates
a driver, stores it and returns it. -/
def get_driver (st : DriverState) (browser : String) :
    Except PyErr Nat × DriverState :=
  match st.driver with
  | some d => (.ok d, st)
  | none =>
    match create_driver browser st.nextId with
    | .ok d => (.ok d, ⟨some d, st.nextId + 1⟩)
    | .error e => (.error e, st)

/-- `DriverManager.quit_driver`: quits and clears the stored handle when
one is live, otherwise does nothing. -/
def quit_driver (st : DriverState) : DriverState :=
  match st.driver with
  | some _ => ⟨none, st.nextId⟩
  | none => st

/-- Handle identities issued so far stay below the fresh supply; every
state reachable from `⟨none, 0⟩` satisfies this. -/
def DriverInv (st : DriverState) : Prop :=
  ∀ d, st.driver = some d → d < st.nextId

/-- A call sequence against the `DriverManager` interface. -/
inductive DMOp where
  | get (browser : String)
  | quit
deriving Repr

/-- Run a sequence of `get`/`quit` calls, collecting every handle value a
`get` call returned. -/
def runDM (st : DriverState) : List DMOp → List Nat × DriverState
  | [] => ([], st)
  | .get b :: ops =>
    let r := get_driver st b
    let rest := runDM r.2 ops
    match r.1 with
    | .ok d => (d :: rest.1, rest.2)
    | .error _ => (rest.1, rest.2)
  | .quit :: ops => runDM (quit_driver st) ops

end Framework

namespace Framework

/-! ## Theorems -/

/-- C5: `get_property(section, key, fallback)` returns the stored string
when the key is present; when absent and a fallback was supplied it
returns the (stringified) fallback; when absent and the fallback is `None`
it raises the missing-key error, whose message mentions the dotted
`section.key` pair. -/
theorem C5_get_property_contract (cfg : Config) (sec k : String) :
    (∀ v, lookupKey cfg sec k = some v →
      ∀ fb, get_property cfg sec k fb = .ok v) ∧
    (lookupKey cfg sec k = none →
      (∀ fb, get_property cfg sec k (some fb) = .ok fb) ∧
      get_property cfg sec k none = .error (.keyError (missingMsg sec k)) ∧
      ∃ pre post, missingMsg sec k = pre ++ (sec ++ "." ++ k) ++ post) := by
  constructor
  · intro v hv fb
    simp [get_property, hv]
  · intro hnone
    exact ⟨fun fb => by simp [get_property, hnone],
      by simp [get_property, hnone],
      "Property '", "' not found in configuration", rfl⟩

/-- Witness for C5 at the spec's own scenario: configuration missing the
`URLS` section entirely. -/
theorem C5_get_property_witness :
    get_property [] "URLS" "base_url" (some "cfg-default") = .ok "cfg-default" ∧
    get_property [] "URLS" "base_url" none =
      .error (.keyError (missingMsg "URLS" "base_url")) :=
  ⟨((C5_get_property_contract [] "URLS" "base_url").2 rfl).1 "cfg-default",
   ((C5_get_property_contract [] "URLS" "base_url").2 rfl).2.1⟩

/-- C1 as stated is false on the code: `get_int("T", "k", fallback=5)` on a
stored non-numeric value does not return the fallback — only
`NoSectionError`/`NoOptionError` are caught, so the `ValueError` from
`int("abc")` escapes. -/
theorem C1_counterexample :
    get_int [(("T", "k"), "abc")] "T" "k" 5 ≠ Except.ok (5 : Int) := by
  decide

/-- C1 amended: the typed getters return the fallback only when the key is
absent; a present numeric/parsable value is returned parsed; a present
value that fails to coerce raises `ValueError` instead of yielding the
fallback, for `get_int`, `get_boolean` and `get_float` alike. -/
theorem C1_typed_getters_soft_only_when_absent (cfg : Config) (sec k : String) :
    (∀ fb : Int, lookupKey cfg sec k = none → get_int cfg sec k fb = .ok fb) ∧
    (∀ fb v n, lookupKey cfg sec k = some v → pyParseInt v = some n →
      get_int cfg sec k fb = .ok n) ∧
    (∀ fb v, lookupKey cfg sec k = some v → pyParseInt v = none →
      get_int cfg sec k fb =
        .error (.valueError ("could not coerce stored value: " ++ v))) ∧
    (∀ fb : Bool, lookupKey cfg sec k = none → get_boolean cfg sec k fb = .ok fb) ∧
    (∀ fb v b, lookupKey cfg sec k = some v → pyParseBool v = some b →
      get_boolean cfg sec k fb = .ok b) ∧
    (∀ fb v, lookupKey cfg sec k = some v → pyParseBool v = none →
      get_boolean cfg sec k fb =
        .error (.valueError ("could not coerce stored value: " ++ v))) ∧
    (∀ fb : Rat, lookupKey cfg sec k = none → get_float cfg sec k fb = .ok fb) ∧
    (∀ fb v q, lookupKey cfg sec k = some v → pyParseFloat v = some q →
      get_float cfg sec k fb = .ok q) ∧
    (∀ fb v, lookupKey cfg sec k = some v → pyParseFloat v = none →
      get_float cfg sec k fb =
        .error (.valueError ("could not coerce stored value: " ++ v))) := by
  refine ⟨fun fb h => ?_, fun fb v n hv hp => ?_, fun fb v hv hp => ?_,
    fun fb h => ?_, fun fb v b hv hp => ?_, fun fb v hv hp => ?_,
    fun fb h => ?_, fun fb v q hv hp => ?_, fun fb v hv hp => ?_⟩ <;>
  simp_all [get_int, get_boolean, get_float, typedGet]

/-- Witness for the amended C1: absent key gives the fallback, a stored
numeric string parses, a stored non-coercible string raises. -/
theorem C1_amended_witness :
    get_int [] "T" "k" 5 = .ok 5 ∧
    get_int [(("T", "k"), "7")] "T" "k" 5 = .ok 7 ∧
    get_int [(("T", "k"), "abc")] "T" "k" 5 =
      .error (.valueError ("could not coerce stored value: " ++ "abc")) ∧
    get_boolean [(("T", "k"), "maybe")] "T" "k" false =
      .error (.valueError ("could not coerce stored value: " ++ "maybe")) ∧
    get_float [(("T", "k"), "x")] "T" "k" 0 =
      .error (.valueError ("could not coerce stored value: " ++ "x")) :=
  ⟨(C1_typed_getters_soft_only_when_absent [] "T" "k").1 5 rfl,
   (C1_typed_getters_soft_only_when_absent _ "T" "k").2.1 5 "7" 7 (by decide) (by decide),
   (C1_typed_getters_soft_only_when_absent _ "T" "k").2.2.1 5 "abc" (by decide) (by decide),
   (C1_typed_getters_soft_only_when_absent _ "T" "k").2.2.2.2.2.1 false "maybe" (by decide) (by decide),
   (C1_typed_getters_soft_only_when_absent _ "T" "k").2.2.2.2.2.2.2.2 0 "x" (by decide) (by decide)⟩

end Framework

namespace Framework

/-- C9: the validated accessors (`get_browser`, `get_base_url`,
`get_explicit_wait_timeout`) raise `ValueError` whenever the value the
wrapped accessor produced — read from the file or via fallback — fails
the validation predicate, and return it unchanged when it passes; so the
typed soft-fallback "never fail" policy does not hold for them. -/
theorem C9_validated_accessors_raise (cfg : Config) :
    (∀ v, get_property cfg "BROWSER" "browser" (some "chrome") = .ok v →
      (browserPred v = false →
        get_browser cfg = .error (.valueError "Invalid configuration value")) ∧
      (browserPred v = true → get_browser cfg = .ok v)) ∧
    (∀ v, get_property cfg "URLS" "base_url" none = .ok v →
      (pyStartsWith "http" v = false →
        get_base_url cfg = .error (.valueError "Invalid configuration value")) ∧
      (pyStartsWith "http" v = true → get_base_url cfg = .ok v)) ∧
    (∀ x : Int, get_int cfg "TIMEOUTS" "explicit_wait_timeout" 10 = .ok x →
      (¬ 0 < x →
        get_explicit_wait_timeout cfg = .error (.valueError "Invalid configuration value")) ∧
      (0 < x → get_explicit_wait_timeout cfg = .ok x)) := by
  refine ⟨fun v hv => ⟨fun hp => ?_, fun hp => ?_⟩,
    fun v hv => ⟨fun hp => ?_, fun hp => ?_⟩,
    fun x hx => ⟨fun hp => ?_, fun hp => ?_⟩⟩ <;>
  simp_all [get_browser, get_base_url, get_explicit_wait_timeout, validate_config]

/-- Witness for C9: a stored browser `"opera"` makes `get_browser` raise
`ValueError`; a stored base URL not starting with `"http"` makes
`get_base_url` raise; a stored timeout `0` makes
`get_explicit_wait_timeout` raise. -/
theorem C9_witness :
    get_browser [(("BROWSER", "browser"), "opera")] =
      .error (.valueError "Invalid configuration value") ∧
    get_base_url [(("URLS", "base_url"), "ftp://x")] =
      .error (.valueError "Invalid configuration value") ∧
    get_explicit_wait_timeout [(("TIMEOUTS", "explicit_wait_timeout"), "0")] =
      .error (.valueError "Invalid configuration value") :=
  ⟨((C9_validated_accessors_raise [(("BROWSER", "browser"), "opera")]).1
      "opera" (by decide)).1 (by decide),
   ((C9_validated_accessors_raise [(("URLS", "base_url"), "ftp://x")]).2.1
      "ftp://x" (by decide)).1 (by decide),
   ((C9_validated_accessors_raise [(("TIMEOUTS", "explicit_wait_timeout"), "0")]).2.2
      0 (by decide)).1 (by decide)⟩

/-- An always-failing retryable operation drives `retryLoop` to exhaustion:
from attempt index `a` with `r` retries remaining it performs `r + 1`
invocations and `r` sleeps and re-raises the failure of the last attempt. -/
theorem retryLoop_always_fails {E α : Type} (op : Nat → Except E α)
    (retryable : E → Bool) (err : Nat → E)
    (hop : ∀ i, op i = .error (err i))
    (hret : ∀ i, retryable (err i) = true) :
    ∀ r a, retryLoop op retryable r a = (.error (err (a + r)), r + 1, r) := by
  intro r
  induction r with
  | zero => intro a; simp [retryLoop, hop, hret]
  | succ r ih =>
    intro a
    rw [retryLoop]
    simp only [hop, hret, if_true]
    rw [ih (a + 1)]
    simp [Nat.add_comm, Nat.add_assoc, Nat.add_left_comm]

/-- C2: with `max_retries = n` and an operation that fails with a
retryable exception on every invocation, `retry_on_exception` invokes the
operation exactly `n + 1` times, sleeps `n` times between attempts, and
the failure finally re-raised is the one of the `(n+1)`-th attempt (index
`n`); with `n = 0` this is one invocation, zero sleeps, immediate raise. -/
theorem C2_retry_exhausts_after_n_plus_one {E α : Type}
    (op : Nat → Except E α) (retryable : E → Bool) (err : Nat → E)
    (hop : ∀ i, op i = .error (err i))
    (hret : ∀ i, retryable (err i) = true) (n : Nat) :
    retry_on_exception op retryable n = (.error (err n), n + 1, n) := by
  rw [retry_on_exception, retryLoop_always_fails op retryable err hop hret n 0]
  simp

/-- Witness for C2: a stale-element failure on every attempt with
`max_retries = 2` gives three invocations and two sleeps, and with
`max_retries = 0` one invocation and zero sleeps. -/
theorem C2_witness :
    retry_on_exception (α := Unit) (fun _ => .error (DriverErr.staleElement "s"))
      (fun e => match e with | .staleElement _ => true | _ => false) 2 =
      (.error (DriverErr.staleElement "s"), 3, 2) ∧
    retry_on_exception (α := Unit) (fun _ => .error (DriverErr.staleElement "s"))
      (fun e => match e with | .staleElement _ => true | _ => false) 0 =
      (.error (DriverErr.staleElement "s"), 1, 0) :=
  ⟨C2_retry_exhausts_after_n_plus_one _ _ (fun _ => DriverErr.staleElement "s")
      (fun _ => rfl) (fun _ => rfl) 2,
   C2_retry_exhausts_after_n_plus_one _ _ (fun _ => DriverErr.staleElement "s")
      (fun _ => rfl) (fun _ => rfl) 0⟩

/-- C8: for every `max_retries`, an operation whose first invocation fails
with an exception outside the decorator's `exceptions` tuple is invoked
exactly once; that failure propagates unmodified at once, with zero
sleeps. -/
theorem C8_nonretryable_propagates_once {E α : Type}
    (op : Nat → Except E α) (retryable : E → Bool) (e : E)
    (h0 : op 0 = .error e) (hnr : retryable e = false) (n : Nat) :
    retry_on_exception op retryable n = (.error e, 1, 0) := by
  rw [retry_on_exception, retryLoop]
  simp [h0, hnr]

/-- Witness for C8: a `TimeoutException` is not in
`(StaleElementReferenceException,)`, so it escapes on the first attempt
even with `max_retries = 3`. -/
theorem C8_witness :
    retry_on_exception (α := Unit) (fun _ => .error (DriverErr.timeout "t"))
      (fun e => match e with | .staleElement _ => true | _ => false) 3 =
      (.error (DriverErr.timeout "t"), 1, 0) :=
  C8_nonretryable_propagates_once _ _ (DriverErr.timeout "t") rfl rfl 3

end Framework

namespace Framework

/-- C10: the four `handle_exceptions`-wrapped BasePage accessors are total
at the public interface (they are functions into `String`/`Bool`, not
partial maps): whatever failure the underlying driver interaction raises —
timeout included — `get_text` and `get_attribute` return `""` and
`is_element_displayed` and `is_element_present` return `false`; no
exception propagates to the caller. -/
theorem C10_wrapped_accessors_never_raise (loc : String) (e : DriverErr) :
    get_text loc (.error e) = "" ∧
    get_attribute loc (.error e) = "" ∧
    is_element_displayed (.error e) = false ∧
    is_element_present (.error e) = false := by
  cases e <;>
    simp [get_text, get_text_body, get_attribute, get_attribute_body,
      is_element_displayed, is_element_displayed_body,
      is_element_present, is_element_present_body, handle_exceptions]

/-- Cache hits, misses, invalidation and non-caching of failures for one
`lru_cache`-wrapped accessor: a first miss computes once and stores; a
second identical call returns the stored value without computing; after
`cache_clear` the computation runs again; a failing call stores nothing,
so the next identical call re-attempts. -/
theorem C6_cache_contract {κ ν : Type} [BEq κ] [LawfulBEq κ]
    (compute bad : κ → Except PyErr ν) (k : κ) (v : ν) (st0 : CacheState κ ν)
    (hmiss : st0.entries.find? (fun e => e.1 == k) = none)
    (hc : compute k = .ok v) :
    cachedCall compute st0 k = (.ok v, ⟨(k, v) :: st0.entries⟩, 1) ∧
    cachedCall compute (cachedCall compute st0 k).2.1 k =
      (.ok v, ⟨(k, v) :: st0.entries⟩, 0) ∧
    cachedCall compute cache_clear k = (.ok v, ⟨[(k, v)]⟩, 1) ∧
    (∀ e, bad k = .error e →
      cachedCall bad st0 k = (.error e, st0, 1) ∧
      cachedCall bad (cachedCall bad st0 k).2.1 k = (.error e, st0, 1)) := by
  have h1 : cachedCall compute st0 k = (.ok v, ⟨(k, v) :: st0.entries⟩, 1) := by
    simp [cachedCall, hmiss, hc]
  refine ⟨h1, ?_, ?_, ?_⟩
  · rw [h1]
    simp [cachedCall]
  · simp [cachedCall, cache_clear, hc]
  · intro e he
    have hb : cachedCall bad st0 k = (.error e, st0, 1) := by
      simp [cachedCall, hmiss, he]
    exact ⟨hb, by rw [hb]; simp [cachedCall, hmiss, he]⟩

/-- Witness for C6 at a concrete accessor: two identical calls, one
computation; recompute after clearing; failures never stored. -/
theorem C6_cache_witness :
    cachedCall (fun _ => Except.ok (7 : Int)) (⟨[]⟩ : CacheState String Int)
      "browser" = (.ok 7, ⟨[("browser", 7)]⟩, 1) ∧
    cachedCall (fun _ => Except.ok (7 : Int))
      (cachedCall (fun _ => Except.ok (7 : Int)) (⟨[]⟩ : CacheState String Int)
        "browser").2.1 "browser" = (.ok 7, ⟨[("browser", 7)]⟩, 0) ∧
    cachedCall (fun _ => Except.ok (7 : Int)) cache_clear "browser" =
      (.ok 7, ⟨[("browser", 7)]⟩, 1) ∧
    (cachedCall (fun _ => Except.error (PyErr.valueError "boom"))
        (⟨[]⟩ : CacheState String Int) "browser" =
      (.error (.valueError "boom"), ⟨[]⟩, 1) ∧
    cachedCall (fun _ => Except.error (PyErr.valueError "boom"))
        (cachedCall (fun _ => Except.error (PyErr.valueError "boom"))
          (⟨[]⟩ : CacheState String Int) "browser").2.1 "browser" =
      (.error (.valueError "boom"), ⟨[]⟩, 1)) := by
  have h := C6_cache_contract (fun _ => Except.ok (7 : Int))
    (fun _ => Except.error (PyErr.valueError "boom")) "browser" 7
    (⟨[]⟩ : CacheState String Int) rfl rfl
  exact ⟨h.1, h.2.1, h.2.2.1, h.2.2.2 (.valueError "boom") rfl⟩

/-- Once the singleton slot holds instance `0` after one load, further
`ConfigManager()` calls return it unchanged and never load again. -/
theorem getInstanceRun_stable (m : Nat) :
    getInstanceRun ⟨some 0, 1⟩ m = (List.replicate m 0, ⟨some 0, 1⟩) := by
  induction m with
  | zero => simp [getInstanceRun]
  | succ m ih => simp [getInstanceRun, getInstance, ih, List.replicate_succ]

/-- C7: every one of `n ≥ 1` successive `ConfigManager()` calls in a
process returns the same instance (`0`), the file load runs exactly once,
on the first call, and the class state never changes afterwards. -/
theorem C7_singleton_loads_once (n : Nat) (hn : 0 < n) :
    (getInstanceRun initSingleton n).1 = List.replicate n 0 ∧
    (getInstanceRun initSingleton n).2 = ⟨some 0, 1⟩ ∧
    (getInstance initSingleton).2.loadCount = 1 := by
  obtain ⟨m, rfl⟩ : ∃ m, n = m + 1 := ⟨n - 1, (Nat.succ_pred_eq_of_pos hn).symm⟩
  refine ⟨?_, ?_, rfl⟩ <;>
    simp [getInstanceRun, getInstance, initSingleton, getInstanceRun_stable,
      List.replicate_succ]

/-- Witness for C7 at three calls. -/
theorem C7_singleton_witness :
    (getInstanceRun initSingleton 3).1 = List.replicate 3 0 ∧
    (getInstanceRun initSingleton 3).2 = ⟨some 0, 1⟩ ∧
    (getInstance initSingleton).2.loadCount = 1 :=
  C7_singleton_loads_once 3 (by decide)

end Framework

namespace Framework

/-- `_create_driver` either succeeds with the fresh handle (supported
browser) or raises (unsupported). -/
theorem create_driver_cases (b : String) (n : Nat) :
    create_driver b n = .ok n ∨ ∃ e, create_driver b n = .error e := by
  by_cases h : (pyLower b == "chrome" || pyLower b == "firefox"
      || pyLower b == "edge") = true
  · exact Or.inl (by simp [create_driver, h])
  · exact Or.inr ⟨.valueError ("Unsupported browser: " ++ pyLower b),
      by simp [create_driver, h]⟩

/-- C3: two sequential `get_driver` calls with no intervening
`quit_driver` return the identical handle, the kind requested on the
second call being ignored (it is universally quantified); after
`quit_driver`, a subsequent `get_driver("chrome")` returns a new handle
distinct from the destroyed one. -/
theorem C3_session_reuse_and_recreate (st : DriverState)
    (hinv : DriverInv st) (b : String) :
    (∃ d, (get_driver st "chrome").1 = .ok d ∧
      (get_driver (get_driver st "chrome").2 b).1 = .ok d) ∧
    (∀ d, st.driver = some d →
      ∃ d', (get_driver (quit_driver st) "chrome").1 = .ok d' ∧ d' ≠ d) := by
  have hcd : ∀ n, create_driver "chrome" n = .ok n := fun n => by
    have : (pyLower "chrome" == "chrome" || pyLower "chrome" == "firefox"
        || pyLower "chrome" == "edge") = true := by decide
    simp [create_driver, this]
  constructor
  · cases hst : st.driver with
    | some d => exact ⟨d, by simp [get_driver, hst], by simp [get_driver, hst]⟩
    | none =>
      refine ⟨st.nextId, ?_, ?_⟩ <;> simp [get_driver, hst, hcd]
  · intro d hd
    have hq : quit_driver st = ⟨none, st.nextId⟩ := by simp [quit_driver, hd]
    refine ⟨st.nextId, ?_, ?_⟩
    · rw [hq]
      simp [get_driver, hcd]
    · exact Nat.ne_of_gt (hinv d hd)

/-- Witness for C3 from a state holding live handle 5: both gets return 5,
the second one requesting `"firefox"`; after quitting, the fresh handle
differs from 5. -/
theorem C3_witness :
    DriverInv ⟨some 5, 6⟩ ∧
    ((∃ d, (get_driver ⟨some 5, 6⟩ "chrome").1 = .ok d ∧
        (get_driver (get_driver ⟨some 5, 6⟩ "chrome").2 "firefox").1 = .ok d) ∧
      (∀ d, (⟨some 5, 6⟩ : DriverState).driver = some d →
        ∃ d', (get_driver (quit_driver ⟨some 5, 6⟩) "chrome").1 = .ok d' ∧
          d' ≠ d)) := by
  have pf : DriverInv ⟨some 5, 6⟩ := by
    intro d h
    injection h with h
    subst h
    decide
  exact ⟨pf, C3_session_reuse_and_recreate ⟨some 5, 6⟩ pf "firefox"⟩

/-- C4 as stated is false on the code: `get_driver` lazily re-creates a
driver after `quit_driver`, so one `get()` call after a `quit()` does
yield a live handle again through the plain `get`/`quit` interface (here:
the state after the call holds live handle 1, which the call returned). -/
theorem C4_counterexample :
    (runDM (quit_driver ⟨some 0, 1⟩) [DMOp.get "chrome"]).1 = [1] ∧
    (runDM (quit_driver ⟨some 0, 1⟩) [DMOp.get "chrome"]).2.driver = some 1 := by
  decide

/-- The destroyed handle `d` can never come back: from any state whose
live handle (if any) differs from `d` and whose fresh supply is above `d`,
no `get`/`quit` sequence ever returns `d`. -/
theorem runDM_avoids (d : Nat) : ∀ (ops : List DMOp) (st : DriverState),
    d < st.nextId → (∀ d', st.driver = some d' → d ≠ d') →
    d ∉ (runDM st ops).1 := by
  intro ops
  induction ops with
  | nil => intro st _ _; simp [runDM]
  | cons op ops ih =>
    intro st hlt hne
    cases op with
    | get b =>
      cases hst : st.driver with
      | some d' =>
        have : runDM st (.get b :: ops) =
            (d' :: (runDM st ops).1, (runDM st ops).2) := by
          simp [runDM, get_driver, hst]
        rw [this]
        simp only [List.mem_cons, not_or]
        exact ⟨hne d' hst, ih st hlt hne⟩
      | none =>
        rcases create_driver_cases b st.nextId with hcb | ⟨e, hcb⟩
        · have : runDM st (.get b :: ops) =
              (st.nextId :: (runDM ⟨some st.nextId, st.nextId + 1⟩ ops).1,
               (runDM ⟨some st.nextId, st.nextId + 1⟩ ops).2) := by
            simp [runDM, get_driver, hst, hcb]
          rw [this]
          simp only [List.mem_cons, not_or]
          refine ⟨Nat.ne_of_lt hlt, ih ⟨some st.nextId, st.nextId + 1⟩ ?_ ?_⟩
          · exact Nat.lt_succ_of_lt hlt
          · intro d' h
            injection h with h
            subst h
            exact Nat.ne_of_lt hlt
        · have : runDM st (.get b :: ops) =
              ((runDM st ops).1, (runDM st ops).2) := by
            simp [runDM, get_driver, hst, hcb]
          rw [this]
          exact ih st hlt hne
    | quit =>
      cases hst : st.driver with
      | some d' =>
        have hq : quit_driver st = ⟨none, st.nextId⟩ := by
          simp [quit_driver, hst]
        have : runDM st (.quit :: ops) = runDM ⟨none, st.nextId⟩ ops := by
          simp [runDM, hq]
        rw [this]
        exact ih ⟨none, st.nextId⟩ hlt (by intro d' h; simp at h)
      | none =>
        have hq : quit_driver st = st := by simp [quit_driver, hst]
        have : runDM st (.quit :: ops) = runDM st ops := by simp [runDM, hq]
        rw [this]
        exact ih st hlt hne

/-- C4 amended: a handle destroyed by `quit()` is itself never yielded by
any later sequence of `get()`/`quit()` calls — but re-creation of a fresh,
distinct handle does happen lazily through `get()` itself, which is the
interface's own (explicit) re-creation step. -/
theorem C4_destroyed_handle_never_returns (st : DriverState)
    (hinv : DriverInv st) (d : Nat) (hd : st.driver = some d)
    (ops : List DMOp) : d ∉ (runDM (quit_driver st) ops).1 := by
  have hq : quit_driver st = ⟨none, st.nextId⟩ := by simp [quit_driver, hd]
  rw [hq]
  refine runDM_avoids d ops ⟨none, st.nextId⟩ (hinv d hd) ?_
  intro d' h
  simp at h

/-- Witness for the amended C4: handle 0 is quit; a later mixed call
sequence returns handles, none of which is 0. -/
theorem C4_amended_witness :
    (⟨some 0, 1⟩ : DriverState).driver = some 0 ∧
    0 ∉ (runDM (quit_driver ⟨some 0, 1⟩)
      [DMOp.get "chrome", DMOp.get "firefox", DMOp.quit, DMOp.get "edge"]).1 := by
  have pf : DriverInv ⟨some 0, 1⟩ := by
    intro d h
    injection h with h
    subst h
    decide
  exact ⟨rfl, C4_destroyed_handle_never_returns ⟨some 0, 1⟩ pf 0 rfl _⟩

end Framework
